import Mathlib

/-!
Shallow embedding of the gopcua high-level OPC-UA server core (server.go):
the accept loop (serve), the per-connection handler loop (handle), the
built-in discovery handlers, and the Handler / ResponseWriter contract.

Environmental effects are supplied as explicit inputs: the accept loop
consumes a list of AcceptEvent (what each Accept call yields and, for each
accepted connection, whether the secure-channel open succeeds and which
decoded messages the channel then delivers), and the handler loop consumes a
list of ReceiveResult.  Observable actions (logging, closing a channel or a
connection, transmitting a response) are emitted as Event values.  Go
pointers that may be nil are modelled as Option; a nil-pointer dereference
is the CloseResult.nilPanic outcome.  Spawned connection handlers share no
mutable state in the source, so their traces are collected as independent
event lists.
-/

namespace OpcuaModel

/-- Errors surfaced by the transport listener, secure-channel open or the
receive path; the server code treats them as opaque values. -/
inductive UAError where
  | transportError (text : String)
  | secureChannelError (text : String)
  | receiveError (text : String)
deriving DecidableEq

/-- uacp.Acknowledge: the transport handshake parameters (uint32 fields). -/
structure Acknowledge where
  ReceiveBufSize : Nat
  SendBufSize : Nat
  MaxMessageSize : Nat
  MaxChunkCount : Nat
deriving DecidableEq

/-- var DefaultAck of server.go. -/
def DefaultAck : Acknowledge :=
  { ReceiveBufSize := 0xffff
    SendBufSize := 0xffff
    MaxMessageSize := 1 <<< 16
    MaxChunkCount := 256 }

/-- ua.ApplicationDescription, with the fields server.go populates. -/
structure ApplicationDescription where
  ApplicationURI : String
  ProductURI : String
  ApplicationName : String
  ApplicationType : Nat
  DiscoveryURLs : List String
deriving DecidableEq

/-- uasc.Config: the secure-channel configuration, with the fields
server.go reads (SecurityMode, SecurityPolicyURI). -/
structure Config where
  SecurityMode : Nat
  SecurityPolicyURI : String
deriving DecidableEq

/-- uasc.SessionConfig, with the field server.go reads. -/
structure SessionConfig where
  ClientDescription : ApplicationDescription
deriving DecidableEq

/-- Modelled from the spec: DefaultServerConfig (its source is not under
src/) is the fixed default secure-channel configuration (security policy and
mode).  The concrete values are representative; the claims depend only on it
being one fixed constant. -/
def DefaultServerConfig : Config :=
  { SecurityMode := 1
    SecurityPolicyURI := "http://opcfoundation.org/UA/SecurityPolicy#None" }

/-- Modelled from the spec: DefaultServerSessionConfig (its source is not
under src/) is the fixed default session configuration carrying the
application/client description. -/
def DefaultServerSessionConfig : SessionConfig :=
  { ClientDescription :=
      { ApplicationURI := "urn:gopcua:server"
        ProductURI := "urn:gopcua"
        ApplicationName := "gopcua server"
        ApplicationType := 0
        DiscoveryURLs := [] } }

/-- Modelled from the spec: a functional option mutates the pair of
configurations supplied at construction (the options mechanism of
NewServer; the option constructors themselves are not under src/). -/
def ServerOption := Config → SessionConfig → Config × SessionConfig

/-- Modelled from the spec: ApplyConfig (its source is not under src/)
applies the supplied options in order to the two default configurations. -/
def ApplyConfig (cfg : Config) (sessionCfg : SessionConfig)
    (opts : List ServerOption) : Config × SessionConfig :=
  opts.foldl (fun p opt => opt p.1 p.2) (cfg, sessionCfg)

/-- uacp.Listener: the bound transport listener, remembering the endpoint it
was bound to and the handshake parameters it answers with. -/
structure Listener where
  endpoint : String
  ack : Acknowledge
deriving DecidableEq

/-- The decoded value carried by a received uasc.Message (msg.V, an
interface value in Go): the two request types the dispatch loop recognizes,
or any other decoded type, identified by its type name.  Requests carry the
correlation (request) identifier used to match a response to them. -/
inductive UAMessage where
  | findServersRequest (requestID : Nat)
  | getEndpointsRequest (requestID : Nat)
  | unknownMessage (typeName : String) (requestID : Nat)
deriving DecidableEq

/-- uasc.Message as the Handler contract sees it: modelled by its decoded
payload value. -/
structure UascMessage where
  V : UAMessage
deriving DecidableEq

/-- Request wraps a decoded message directed at the server (pointer field
modelled as Option). -/
structure Request where
  Msg : Option UascMessage
deriving DecidableEq

/-- ResponseWriter holds the one message to send back (a pointer, nil until
first written). -/
structure ResponseWriter where
  Msg : Option UascMessage
deriving DecidableEq

/-- ResponseWriter.Send assigns w.Msg = m; the argument is the pointer
passed by the caller. -/
def ResponseWriter.Send (w : ResponseWriter) (m : Option UascMessage) :
    ResponseWriter :=
  { w with Msg := m }

/-- A finite sequence of calls to Send on a ResponseWriter, in order. -/
def sendSequence (w : ResponseWriter) (ms : List (Option UascMessage)) :
    ResponseWriter :=
  ms.foldl ResponseWriter.Send w

/-- The Handler interface: one capability, ServeOPCUA(w, r); modelled as a
function from the writer state and the request to the new writer state. -/
def Handler := ResponseWriter → Request → ResponseWriter

/-- Server: endpoint URL, optional registered Handler, optional transport
handshake parameters, the listener pointer (nil until ListenAndServe
succeeds in listening), and the two configurations. -/
structure Server where
  endpointURL : String
  Handler : Option Handler
  Ack : Option Acknowledge
  l : Option Listener
  cfg : Config
  sessionCfg : SessionConfig

/-- NewServer applies the options to the two defaults and returns a server
with no listener and no registered Handler (Go zero values). -/
def NewServer (endpoint : String) (opts : List ServerOption) : Server :=
  let p := ApplyConfig DefaultServerConfig DefaultServerSessionConfig opts
  { endpointURL := endpoint
    Handler := none
    Ack := none
    l := none
    cfg := p.1
    sessionCfg := p.2 }

/-- What one call to sechan.Receive yields: a message whose Err field is
set, or a successfully decoded message value. -/
inductive ReceiveResult where
  | err (e : UAError)
  | msg (m : UAMessage)
deriving DecidableEq

/-- ua.FindServersResponse, with the field server.go populates. -/
structure FindServersResponse where
  Servers : List ApplicationDescription
deriving DecidableEq

/-- ua.UserTokenPolicy; server.go only ever builds an empty list of these. -/
structure UserTokenPolicy
deriving DecidableEq

/-- ua.EndpointDescription, with the fields server.go populates. -/
structure EndpointDescription where
  EndpointURL : String
  Server : ApplicationDescription
  ServerCertificate : Option (List Nat)
  SecurityMode : Nat
  SecurityPolicyURI : String
  UserIdentityTokens : List UserTokenPolicy
deriving DecidableEq

/-- ua.GetEndpointsResponse, with the field server.go populates. -/
structure GetEndpointsResponse where
  Endpoints : List EndpointDescription
deriving DecidableEq

/-- A response payload passed to sechan.SendResponse. -/
inductive ResponseMsg where
  | findServers (r : FindServersResponse)
  | getEndpoints (r : GetEndpointsResponse)
deriving DecidableEq

/-- Observable actions of the connection handler loop. -/
inductive Event where
  | logRecvErr (connID : Nat) (e : UAError)
  | chanClosed (connID : Nat)
  | logRecv (connID : Nat) (m : UAMessage)
  | handlerInvoked (connID : Nat) (requestID : Nat)
  | sentResponse (connID : Nat) (requestID : Nat) (resp : ResponseMsg)
  | logUnknown (connID : Nat) (m : UAMessage)
deriving DecidableEq

/-- The response body handleFindServers assembles from the server state. -/
def findServersResp (s : Server) : FindServersResponse :=
  { Servers :=
      [{ ApplicationURI := s.sessionCfg.ClientDescription.ApplicationURI
         ProductURI := s.sessionCfg.ClientDescription.ProductURI
         ApplicationName := s.sessionCfg.ClientDescription.ApplicationName
         ApplicationType := s.sessionCfg.ClientDescription.ApplicationType
         DiscoveryURLs := [s.endpointURL] }] }

/-- Server.handleFindServers: builds the response and performs one
SendResponse correlated to the request. -/
def handleFindServers (s : Server) (connID requestID : Nat) : Event :=
  Event.sentResponse connID requestID (ResponseMsg.findServers (findServersResp s))

/-- The response body handleGetEndpoints assembles from the server state. -/
def getEndpointsResp (s : Server) : GetEndpointsResponse :=
  { Endpoints :=
      [{ EndpointURL := s.endpointURL
         Server :=
           { ApplicationURI := s.sessionCfg.ClientDescription.ApplicationURI
             ProductURI := s.sessionCfg.ClientDescription.ProductURI
             ApplicationName := s.sessionCfg.ClientDescription.ApplicationName
             ApplicationType := s.sessionCfg.ClientDescription.ApplicationType
             DiscoveryURLs := [s.endpointURL] }
         ServerCertificate := none
         SecurityMode := s.cfg.SecurityMode
         SecurityPolicyURI := s.cfg.SecurityPolicyURI
         UserIdentityTokens := [] }] }

/-- Server.handleGetEndpoints: builds the response and performs one
SendResponse correlated to the request. -/
def handleGetEndpoints (s : Server) (connID requestID : Nat) : Event :=
  Event.sentResponse connID requestID (ResponseMsg.getEndpoints (getEndpointsResp s))

/-- Server.handle: the per-connection handler loop.  Each iteration calls
Receive; on error it logs the error, closes the secure channel and returns;
on a message it logs the message and type-switches: the two recognized
request types go to the built-in handlers, anything else is logged and
dropped, and the loop continues.  The loop has no access to the registered
Handler (the Go method takes only ctx, connID and sechan). -/
def handle (s : Server) (connID : Nat) : List ReceiveResult → List Event
  | [] => []
  | ReceiveResult.err e :: _ =>
    [Event.logRecvErr connID e, Event.chanClosed connID]
  | ReceiveResult.msg m :: rest =>
    Event.logRecv connID m ::
    (match m with
     | UAMessage.findServersRequest rid => handleFindServers s connID rid
     | UAMessage.getEndpointsRequest rid => handleGetEndpoints s connID rid
     | UAMessage.unknownMessage t rid =>
       Event.logUnknown connID (UAMessage.unknownMessage t rid)) ::
    handle s connID rest

/-- What one iteration of the accept loop encounters: Accept returns an
error, or it yields a connection (with its locally-assigned id) on which the
secure-channel open either fails or succeeds and then delivers the given
receive results. -/
inductive AcceptEvent where
  | acceptErr (e : UAError)
  | conn (connID : Nat) (secChan : Except UAError (List ReceiveResult))

/-- The observable outcome of the accept loop: the handler loops it spawned
(with their connection ids and event traces), the transport connections it
closed itself, and the error it returned (none while it is still blocked in
Accept on an exhausted input). -/
structure ServeOutcome where
  spawned : List (Nat × List Event)
  closedConns : List Nat
  ret : Option UAError
deriving DecidableEq

/-- Server.serve: loop over Accept results.  An Accept error is returned.
A secure-channel open failure closes that transport connection and returns
the error.  Otherwise a handler loop is spawned for the connection and the
loop continues.  The h argument is accepted but passed to nothing, as in
the source. -/
def serve (s : Server) (h : Option Handler) : List AcceptEvent → ServeOutcome
  | [] => { spawned := [], closedConns := [], ret := none }
  | AcceptEvent.acceptErr e :: _ =>
    { spawned := [], closedConns := [], ret := some e }
  | AcceptEvent.conn connID (Except.error e) :: _ =>
    { spawned := [], closedConns := [connID], ret := some e }
  | AcceptEvent.conn connID (Except.ok recvs) :: rest =>
    let o := serve s h rest
    { o with spawned := (connID, handle s connID recvs) :: o.spawned }

/-- Modelled from the spec: uacp.Listen (its source is not under src/) binds
to the endpoint and either fails with a transport error or yields a
listener configured with the supplied handshake parameters.  Whether the
bind succeeds is environmental, so it is an explicit input here. -/
def uacpListen (endpoint : String) (ack : Acknowledge)
    (outcome : Except UAError Unit) : Except UAError Listener :=
  outcome.map fun _ => { endpoint := endpoint, ack := ack }

/-- The local h of ListenAndServe: if h == nil it falls back to s.Handler. -/
def effectiveHandler (s : Server) (h : Option Handler) : Option Handler :=
  match h with
  | none => s.Handler
  | some hh => some hh

/-- The local ack of ListenAndServe: if s.Ack == nil it falls back to
DefaultAck. -/
def effectiveAck (s : Server) : Acknowledge :=
  match s.Ack with
  | none => DefaultAck
  | some a => a

/-- Server.ListenAndServe: defaults h to s.Handler and the ack to
DefaultAck, listens, and on success stores the listener, overwrites s.cfg
with DefaultServerConfig, and runs serve.  Returns the mutated server
together with either the serve outcome or the early listen error. -/
def ListenAndServe (s : Server) (h : Option Handler)
    (listenOutcome : Except UAError Unit) (accepts : List AcceptEvent) :
    Server × (ServeOutcome ⊕ UAError) :=
  match uacpListen s.endpointURL (effectiveAck s) listenOutcome with
  | Except.error e => (s, Sum.inr e)
  | Except.ok listener =>
    let s2 : Server := { s with l := some listener, cfg := DefaultServerConfig }
    (s2, Sum.inl (serve s2 (effectiveHandler s h) accepts))

/-- The server state ListenAndServe serves with, after a successful listen:
the listener is stored and the secure-channel configuration is overwritten
with DefaultServerConfig. -/
def servingServer (s : Server) : Server :=
  { s with
    l := some { endpoint := s.endpointURL, ack := effectiveAck s }
    cfg := DefaultServerConfig }

/-- The error value ListenAndServe returns to its caller. -/
def returnedError (r : Server × (ServeOutcome ⊕ UAError)) : Option UAError :=
  match r.2 with
  | Sum.inl o => o.ret
  | Sum.inr e => some e

/-- The handler loops spawned during a ListenAndServe run. -/
def spawnedHandlers (r : Server × (ServeOutcome ⊕ UAError)) :
    List (Nat × List Event) :=
  match r.2 with
  | Sum.inl o => o.spawned
  | Sum.inr _ => []

/-- The transport connections the accept loop itself closed during a
ListenAndServe run. -/
def closedTransportConns (r : Server × (ServeOutcome ⊕ UAError)) : List Nat :=
  match r.2 with
  | Sum.inl o => o.closedConns
  | Sum.inr _ => []

/-- Modelled from the spec: uacp Listener.Close (its source is not under
src/) releases the underlying listener and reports no error; its body
dereferences the receiver, so reaching it through a nil listener pointer is
a nil-pointer dereference. -/
def listenerClose (_ : Listener) : Option UAError := none

/-- The outcome of a Go call that may dereference a nil pointer. -/
inductive CloseResult where
  | ok (e : Option UAError)
  | nilPanic
deriving DecidableEq

/-- Server.Close returns s.l.Close(): when s.l is nil this dereferences a
nil listener. -/
def Server.Close (s : Server) : CloseResult :=
  match s.l with
  | none => CloseResult.nilPanic
  | some listener => CloseResult.ok (listenerClose listener)

/-- True of accept-loop inputs on which the loop keeps looping: an accepted
connection whose secure-channel open succeeded. -/
def acceptOk : AcceptEvent → Bool
  | AcceptEvent.conn _ (Except.ok _) => true
  | _ => false

/-- Number of invocations of the registered Handler recorded in a trace. -/
def handlerCalls (evs : List Event) : Nat :=
  (evs.filter fun ev =>
    match ev with
    | Event.handlerInvoked _ _ => true
    | _ => false).length

/-- Number of responses transmitted for a given correlation (request) id in
a trace. -/
def responsesFor (requestID : Nat) (evs : List Event) : Nat :=
  (evs.filter fun ev =>
    match ev with
    | Event.sentResponse _ rid _ => rid == requestID
    | _ => false).length

/-- A concrete do-nothing Handler used for concrete runs. -/
def demoHandler : Handler := fun w _ => w

/-- A concrete server as the example program builds it: NewServer with no
options, with a Handler registered. -/
def demoServer : Server :=
  { NewServer "opc.tcp://localhost:4840" [] with Handler := some demoHandler }

/-- A concrete server built with no options and no Handler. -/
def baseServer : Server := NewServer "opc.tcp://localhost:4840" []

/-- A concrete option setting the secure-channel security policy to a
non-default value. -/
def setPolicyOpt : ServerOption :=
  fun c sc => ({ c with SecurityPolicyURI := "custom-policy" }, sc)

/-- An all-ok prefix of accept events contributes its spawned handler loops
and leaves the rest of the input to be processed as if it stood alone. -/
theorem serve_append_of_allOk (s : Server) (h : Option Handler)
    (pre evs : List AcceptEvent) (hpre : pre.all acceptOk = true) :
    serve s h (pre ++ evs) =
      { spawned := (serve s h pre).spawned ++ (serve s h evs).spawned
        closedConns := (serve s h evs).closedConns
        ret := (serve s h evs).ret } := by
  induction pre with
  | nil => simp [serve]
  | cons ev rest ih =>
    cases ev with
    | acceptErr e => simp [List.all_cons, acceptOk] at hpre
    | conn connID sc =>
      cases sc with
      | error e => simp [List.all_cons, acceptOk] at hpre
      | ok recvs =>
        have hrest : rest.all acceptOk = true := by
          simpa [List.all_cons, acceptOk] using hpre
        simp [serve, ih hrest]

/-- C5: when Receive yields an error, the handler loop logs the error,
closes the secure channel and terminates: the trace is exactly these two
events, with no dispatch of the remaining input and no reconnection. -/
theorem c5_receive_error_closes_channel (s : Server) (connID : Nat)
    (e : UAError) (rest : List ReceiveResult) :
    handle s connID (ReceiveResult.err e :: rest) =
      [Event.logRecvErr connID e, Event.chanClosed connID] := rfl

/-- C4: a message of an unrecognized type is logged and dropped: the loop
emits the two log events for it and then processes the rest of the input
exactly as it would on its own (the next message is dispatched normally);
processing the unrecognized message alone emits no channel close. -/
theorem c4_unknown_type_tolerated (s : Server) (connID : Nat)
    (t : String) (rid : Nat) (rest : List ReceiveResult) :
    handle s connID (ReceiveResult.msg (UAMessage.unknownMessage t rid) :: rest) =
      Event.logRecv connID (UAMessage.unknownMessage t rid) ::
      Event.logUnknown connID (UAMessage.unknownMessage t rid) ::
      handle s connID rest ∧
    Event.chanClosed connID ∉
      handle s connID [ReceiveResult.msg (UAMessage.unknownMessage t rid)] := by
  refine ⟨rfl, ?_⟩
  simp [handle]

/-- C8: dispatching a FindServers request sends back exactly one response,
whose server list has exactly one entry and whose discovery URLs are
exactly the configured endpoint URL. -/
theorem c8_find_servers_single_entry (s : Server) (connID rid : Nat)
    (rest : List ReceiveResult) :
    handle s connID (ReceiveResult.msg (UAMessage.findServersRequest rid) :: rest) =
      Event.logRecv connID (UAMessage.findServersRequest rid) ::
      Event.sentResponse connID rid (ResponseMsg.findServers (findServersResp s)) ::
      handle s connID rest ∧
    (findServersResp s).Servers.map (fun d => d.DiscoveryURLs) =
      [[s.endpointURL]] := ⟨rfl, rfl⟩

/-- C9: for any finite sequence of Send calls on a ResponseWriter, the
message held afterwards is the argument of the last call; earlier writes
are overwritten and no call can fail. -/
theorem c9_last_send_wins (w : ResponseWriter)
    (ms : List (Option UascMessage)) (m : Option UascMessage) :
    (sendSequence w (ms ++ [m])).Msg = m := by
  simp [sendSequence, List.foldl_append, ResponseWriter.Send]

/-- C1: the dispatch loop never invokes the registered Handler.  Every
handler-loop trace contains zero Handler invocations, for any server (in
particular one with a Handler registered); on the concrete recognized
FindServers message below, the built-in handler answers with exactly one
response for its correlation id while the registered Handler is invoked
zero times, not exactly once. -/
theorem c1_handler_never_invoked :
    (∀ (s : Server) (connID : Nat) (recvs : List ReceiveResult),
        handlerCalls (handle s connID recvs) = 0) ∧
    responsesFor 7
      (handle demoServer 1 [ReceiveResult.msg (UAMessage.findServersRequest 7)]) = 1 ∧
    handlerCalls
      (handle demoServer 1 [ReceiveResult.msg (UAMessage.findServersRequest 7)]) = 0 := by
  refine ⟨?_, rfl, rfl⟩
  intro s connID recvs
  induction recvs with
  | nil => rfl
  | cons r rest ih =>
    cases r with
    | err e => rfl
    | msg m =>
      cases m with
      | findServersRequest rid =>
        simpa [handle, handlerCalls, handleFindServers] using ih
      | getEndpointsRequest rid =>
        simpa [handle, handlerCalls, handleGetEndpoints] using ih
      | unknownMessage t rid =>
        simpa [handle, handlerCalls] using ih

/-- C3: ListenAndServe overwrites the constructed secure-channel
configuration.  With an option that changes the security policy, NewServer
yields a configuration different from DefaultServerConfig, but after
ListenAndServe the server's configuration used while serving is
DefaultServerConfig again: the options-applied configuration is discarded. -/
theorem c3_cfg_overwritten_by_listen_and_serve :
    (NewServer "opc.tcp://localhost:4840" [setPolicyOpt]).cfg ≠
      DefaultServerConfig ∧
    ((ListenAndServe (NewServer "opc.tcp://localhost:4840" [setPolicyOpt]) none
        (Except.ok ()) []).1).cfg = DefaultServerConfig := by
  exact ⟨by decide, rfl⟩

/-- When the listen step succeeds, ListenAndServe is exactly serve on the
mutated server with the effective handler. -/
theorem listenAndServe_ok_eq (s : Server) (h : Option Handler)
    (accepts : List AcceptEvent) :
    ListenAndServe s h (Except.ok ()) accepts =
      (servingServer s,
       Sum.inl (serve (servingServer s) (effectiveHandler s h) accepts)) := rfl

/-- C2 counterexample: a concrete run in which the secure-channel open on
the first accepted connection fails.  The transport connection is closed,
but the accept loop terminates: ListenAndServe returns the error, and the
second, perfectly healthy connection is never accepted or handled — the
failure is not contained to the failing connection. -/
theorem c2_counterexample :
    returnedError (ListenAndServe baseServer none (Except.ok ())
        [AcceptEvent.conn 1 (Except.error (UAError.secureChannelError "open failed")),
         AcceptEvent.conn 2 (Except.ok [])]) =
      some (UAError.secureChannelError "open failed") ∧
    spawnedHandlers (ListenAndServe baseServer none (Except.ok ())
        [AcceptEvent.conn 1 (Except.error (UAError.secureChannelError "open failed")),
         AcceptEvent.conn 2 (Except.ok [])]) = [] ∧
    closedTransportConns (ListenAndServe baseServer none (Except.ok ())
        [AcceptEvent.conn 1 (Except.error (UAError.secureChannelError "open failed")),
         AcceptEvent.conn 2 (Except.ok [])]) = [1] := ⟨rfl, rfl, rfl⟩

/-- C2 amended: a failure to open the secure channel on an accepted
connection closes that transport connection, and terminates the accept loop
itself: ListenAndServe returns that error, no connection after the failing
one is handled, and only the handler loops spawned before the failure
exist (they run to their own termination). -/
theorem c2_secchan_failure_terminates_accept_loop
    (s : Server) (h : Option Handler) (pre post : List AcceptEvent)
    (connID : Nat) (e : UAError) (hpre : pre.all acceptOk = true) :
    returnedError (ListenAndServe s h (Except.ok ())
        (pre ++ AcceptEvent.conn connID (Except.error e) :: post)) = some e ∧
    closedTransportConns (ListenAndServe s h (Except.ok ())
        (pre ++ AcceptEvent.conn connID (Except.error e) :: post)) = [connID] ∧
    spawnedHandlers (ListenAndServe s h (Except.ok ())
        (pre ++ AcceptEvent.conn connID (Except.error e) :: post)) =
      spawnedHandlers (ListenAndServe s h (Except.ok ()) pre) := by
  rw [listenAndServe_ok_eq, listenAndServe_ok_eq]
  simp only [returnedError, closedTransportConns, spawnedHandlers]
  rw [serve_append_of_allOk _ _ pre _ hpre]
  refine ⟨rfl, rfl, ?_⟩
  simp [serve]

/-- C2 witness: the amended theorem applied to a concrete run with one
healthy connection before the failing one and one after it. -/
theorem c2_witness :
    returnedError (ListenAndServe baseServer none (Except.ok ())
        ([AcceptEvent.conn 3 (Except.ok [])] ++
         AcceptEvent.conn 4 (Except.error (UAError.secureChannelError "x")) ::
         [AcceptEvent.conn 5 (Except.ok [])])) =
      some (UAError.secureChannelError "x") ∧
    closedTransportConns (ListenAndServe baseServer none (Except.ok ())
        ([AcceptEvent.conn 3 (Except.ok [])] ++
         AcceptEvent.conn 4 (Except.error (UAError.secureChannelError "x")) ::
         [AcceptEvent.conn 5 (Except.ok [])])) = [4] ∧
    spawnedHandlers (ListenAndServe baseServer none (Except.ok ())
        ([AcceptEvent.conn 3 (Except.ok [])] ++
         AcceptEvent.conn 4 (Except.error (UAError.secureChannelError "x")) ::
         [AcceptEvent.conn 5 (Except.ok [])])) =
      spawnedHandlers (ListenAndServe baseServer none (Except.ok ())
        [AcceptEvent.conn 3 (Except.ok [])]) :=
  c2_secchan_failure_terminates_accept_loop baseServer none
    [AcceptEvent.conn 3 (Except.ok [])] [AcceptEvent.conn 5 (Except.ok [])]
    4 (UAError.secureChannelError "x") rfl

/-- C6: when Accept returns an error after any run of healthy connections,
ListenAndServe terminates and returns exactly that error, and the handler
loops in existence are exactly those spawned before the error: none are
spawned after it. -/
theorem c6_accept_error_terminates_listen_and_serve
    (s : Server) (h : Option Handler) (pre post : List AcceptEvent)
    (e : UAError) (hpre : pre.all acceptOk = true) :
    returnedError (ListenAndServe s h (Except.ok ())
        (pre ++ AcceptEvent.acceptErr e :: post)) = some e ∧
    spawnedHandlers (ListenAndServe s h (Except.ok ())
        (pre ++ AcceptEvent.acceptErr e :: post)) =
      spawnedHandlers (ListenAndServe s h (Except.ok ()) pre) := by
  rw [listenAndServe_ok_eq, listenAndServe_ok_eq]
  simp only [returnedError, spawnedHandlers]
  rw [serve_append_of_allOk _ _ pre _ hpre]
  refine ⟨rfl, ?_⟩
  simp [serve]

/-- C6 witness: the theorem applied to a concrete run with one healthy
connection accepted before the listener fails. -/
theorem c6_witness :
    returnedError (ListenAndServe baseServer none (Except.ok ())
        ([AcceptEvent.conn 1 (Except.ok [])] ++
         AcceptEvent.acceptErr (UAError.transportError "listener closed") ::
         [AcceptEvent.conn 2 (Except.ok [])])) =
      some (UAError.transportError "listener closed") ∧
    spawnedHandlers (ListenAndServe baseServer none (Except.ok ())
        ([AcceptEvent.conn 1 (Except.ok [])] ++
         AcceptEvent.acceptErr (UAError.transportError "listener closed") ::
         [AcceptEvent.conn 2 (Except.ok [])])) =
      spawnedHandlers (ListenAndServe baseServer none (Except.ok ())
        [AcceptEvent.conn 1 (Except.ok [])]) :=
  c6_accept_error_terminates_listen_and_serve baseServer none
    [AcceptEvent.conn 1 (Except.ok [])] [AcceptEvent.conn 2 (Except.ok [])]
    (UAError.transportError "listener closed") rfl

/-- C7: when the Ack field is nil, ListenAndServe listens with DefaultAck,
whose parameters are receive buffer 65535, send buffer 65535, max message
size 65536 and max chunk count 256. -/
theorem c7_nil_ack_uses_defaults (s : Server) (h : Option Handler)
    (accepts : List AcceptEvent) (hack : s.Ack = none) :
    ((ListenAndServe s h (Except.ok ()) accepts).1).l =
      some { endpoint := s.endpointURL, ack := DefaultAck } ∧
    DefaultAck =
      { ReceiveBufSize := 65535
        SendBufSize := 65535
        MaxMessageSize := 65536
        MaxChunkCount := 256 } := by
  refine ⟨?_, rfl⟩
  rw [listenAndServe_ok_eq]
  simp [servingServer, effectiveAck, hack]

/-- C7 witness: the theorem applied to the concrete server built by
NewServer, whose Ack field is nil. -/
theorem c7_witness :
    ((ListenAndServe baseServer none (Except.ok ()) []).1).l =
      some { endpoint := baseServer.endpointURL, ack := DefaultAck } ∧
    DefaultAck =
      { ReceiveBufSize := 65535
        SendBufSize := 65535
        MaxMessageSize := 65536
        MaxChunkCount := 256 } :=
  c7_nil_ack_uses_defaults baseServer none [] rfl

/-- C10: Server.Close dereferences a nil listener whenever no listener was
ever established — on a server fresh from NewServer, and on one whose
ListenAndServe failed at the listen step — and cannot hit the nil
dereference once a listener is present. -/
theorem c10_close_requires_listener :
    (∀ (e : String) (opts : List ServerOption),
        Server.Close (NewServer e opts) = CloseResult.nilPanic) ∧
    (∀ (e : String) (opts : List ServerOption) (h : Option Handler)
        (err : UAError) (accepts : List AcceptEvent),
        Server.Close
            ((ListenAndServe (NewServer e opts) h (Except.error err) accepts).1) =
          CloseResult.nilPanic) ∧
    (∀ (s : Server) (listener : Listener),
        s.l = some listener → Server.Close s ≠ CloseResult.nilPanic) := by
  refine ⟨fun e opts => rfl, fun e opts h err accepts => rfl, ?_⟩
  intro s listener hl
  simp [Server.Close, hl]

/-- C10 witness: the theorem applied to a concrete fresh server (nil
listener: Close panics) and to the same server with a listener installed
(Close is safe). -/
theorem c10_witness :
    Server.Close (NewServer "opc.tcp://localhost:4840" []) =
      CloseResult.nilPanic ∧
    Server.Close
        { NewServer "opc.tcp://localhost:4840" [] with
          l := some { endpoint := "opc.tcp://localhost:4840", ack := DefaultAck } } ≠
      CloseResult.nilPanic :=
  ⟨c10_close_requires_listener.1 "opc.tcp://localhost:4840" [],
   c10_close_requires_listener.2.2
     { NewServer "opc.tcp://localhost:4840" [] with
       l := some { endpoint := "opc.tcp://localhost:4840", ack := DefaultAck } }
     { endpoint := "opc.tcp://localhost:4840", ack := DefaultAck } rfl⟩

end OpcuaModel
